import Mathlib

/-!
Verification of the proximity-matching server (src/server.ts).

The embedding models, over the reals, the SQL distance expression used by the
two nearby endpoints, the two SQLite tables (users, posts) as lists of rows,
the write handlers (POST /api/users as INSERT OR REPLACE, POST /api/posts as
plain INSERT under the PRIMARY KEY constraint), and the two read handlers
(GET /api/posts/nearby and GET /api/workers/nearby) as join, WHERE-filter and
ORDER BY over those lists.  SQLite ORDER BY is modelled as a stable sort on
the computed distance column, reflecting the scan order of the table; the SQL
query applies no further ordering.

The radius parameter is modelled with its binding type.  The handlers
destructure req.query with a JavaScript default of 50 and pass radius to the
statement without parseFloat (unlike lat and lng), so a client-supplied
radius is bound as TEXT while the defaulted 50 is bound as a number.  SQLite
orders every numeric value before every text value, and the distance
expression carries no column affinity that would convert the parameter, so
the WHERE comparison distance < radius is always true against a TEXT-bound
radius and is a numeric strict comparison against a REAL-bound one.
-/

open List

/-- SQLite radians(x): converts degrees to radians. -/
noncomputable def radians (x : ℝ) : ℝ := x * Real.pi / 180

/-- The distance column computed by both nearby queries in src/server.ts:
6371 * acos(cos(radians(qLat)) * cos(radians(lat)) * cos(radians(lng) - radians(qLng))
+ sin(radians(qLat)) * sin(radians(lat))), the spherical law of cosines with
Earth radius 6371 km. -/
noncomputable def sqlDistance (qLat qLng lat lng : ℝ) : ℝ :=
  6371 * Real.arccos (Real.cos (radians qLat) * Real.cos (radians lat) *
    Real.cos (radians lng - radians qLng) +
    Real.sin (radians qLat) * Real.sin (radians lat))

lemma sqlDistance_self (lat lng : ℝ) : sqlDistance lat lng lat lng = 0 := by
  unfold sqlDistance
  rw [sub_self, Real.cos_zero, mul_one]
  have h : Real.cos (radians lat) * Real.cos (radians lat) +
      Real.sin (radians lat) * Real.sin (radians lat) = 1 := by
    have := Real.cos_sq_add_sin_sq (radians lat)
    nlinarith [this]
  rw [h, Real.arccos_one, mul_zero]

lemma sqlDistance_comm (la1 ln1 la2 ln2 : ℝ) :
    sqlDistance la1 ln1 la2 ln2 = sqlDistance la2 ln2 la1 ln1 := by
  unfold sqlDistance
  have h : radians ln1 - radians ln2 = -(radians ln2 - radians ln1) := by ring
  rw [h, Real.cos_neg]
  ring_nf

lemma sqlDistance_nonneg (la1 ln1 la2 ln2 : ℝ) :
    0 ≤ sqlDistance la1 ln1 la2 ln2 :=
  mul_nonneg (by norm_num) (Real.arccos_nonneg _)

/-- C8: for all in-range coordinate pairs, the distance expression used by the
nearby queries is symmetric, zero on identical points, and non-negative (the
idealised real-valued reading of the floating-point computation). -/
theorem sqlDistance_symm_refl_nonneg (la1 ln1 la2 ln2 : ℝ)
    (h1 : -90 ≤ la1 ∧ la1 ≤ 90) (h2 : -180 ≤ ln1 ∧ ln1 ≤ 180)
    (h3 : -90 ≤ la2 ∧ la2 ≤ 90) (h4 : -180 ≤ ln2 ∧ ln2 ≤ 180) :
    sqlDistance la1 ln1 la2 ln2 = sqlDistance la2 ln2 la1 ln1 ∧
    sqlDistance la1 ln1 la1 ln1 = 0 ∧
    0 ≤ sqlDistance la1 ln1 la2 ln2 :=
  ⟨sqlDistance_comm la1 ln1 la2 ln2, sqlDistance_self la1 ln1,
    sqlDistance_nonneg la1 ln1 la2 ln2⟩

/-- Witness for C8 at the concrete in-range pair (10, 20) and (30, 40). -/
theorem sqlDistance_symm_refl_nonneg_witness :
    ((-90 ≤ (10:ℝ) ∧ (10:ℝ) ≤ 90) ∧ (-180 ≤ (20:ℝ) ∧ (20:ℝ) ≤ 180) ∧
      (-90 ≤ (30:ℝ) ∧ (30:ℝ) ≤ 90) ∧ (-180 ≤ (40:ℝ) ∧ (40:ℝ) ≤ 180)) ∧
    (sqlDistance 10 20 30 40 = sqlDistance 30 40 10 20 ∧
      sqlDistance 10 20 10 20 = 0 ∧ 0 ≤ sqlDistance 10 20 30 40) :=
  ⟨⟨⟨by norm_num, by norm_num⟩, ⟨by norm_num, by norm_num⟩,
    ⟨by norm_num, by norm_num⟩, ⟨by norm_num, by norm_num⟩⟩,
    sqlDistance_symm_refl_nonneg 10 20 30 40 ⟨by norm_num, by norm_num⟩
      ⟨by norm_num, by norm_num⟩ ⟨by norm_num, by norm_num⟩
      ⟨by norm_num, by norm_num⟩⟩

/-- A row of the users table (src/server.ts, CREATE TABLE users): id TEXT
PRIMARY KEY, name TEXT NOT NULL, role TEXT CHECK(role IN (worker, employer))
NOT NULL, lat REAL, lng REAL (both nullable), last_active DATETIME. -/
structure UserRow where
  id : String
  name : String
  role : String
  lat : Option ℝ
  lng : Option ℝ
  lastActive : Nat

/-- A row of the posts table: id TEXT PRIMARY KEY, user_id TEXT NOT NULL,
title TEXT NOT NULL, description TEXT, category TEXT (nullable),
lat REAL NOT NULL, lng REAL NOT NULL, created_at DATETIME. -/
structure PostRow where
  id : String
  userId : String
  title : String
  description : Option String
  category : Option String
  lat : ℝ
  lng : ℝ
  createdAt : Nat

/-- The database: the two tables, rows in scan (insertion) order. -/
structure Store where
  users : List UserRow
  posts : List PostRow

def emptyStore : Store := ⟨[], []⟩

/-- SQLite constraint failures, thrown by better-sqlite3 as errors. -/
inductive SqlError where
  | notNull
  | checkViolation
  | primaryKey
deriving DecidableEq

/-- The POST /api/users handler: INSERT OR REPLACE INTO users.  The body
fields may be absent (bound as NULL).  SQLite enforces NOT NULL on name and
role and CHECK(role IN (worker, employer)); lat and lng are nullable REAL
columns with no range constraint.  INSERT OR REPLACE deletes any existing row
with the same id and appends the new row, with last_active = CURRENT_TIMESTAMP
(modelled as the explicit argument now). -/
def upsertParticipant (db : Store) (id : String) (name role : Option String)
    (lat lng : Option ℝ) (now : Nat) : Except SqlError Store :=
  match name with
  | none => .error .notNull
  | some n =>
    match role with
    | none => .error .notNull
    | some r =>
      if r = "worker" ∨ r = "employer" then
        .ok { db with
          users := db.users.filter (fun u => u.id ≠ id) ++ [⟨id, n, r, lat, lng, now⟩] }
      else .error .checkViolation

/-- The POST /api/posts handler: plain INSERT INTO posts.  SQLite enforces
NOT NULL on user_id, title, lat and lng, and the PRIMARY KEY on id makes a
duplicate id a constraint error that leaves the table unchanged.  (The
FOREIGN KEY on user_id plays no role in the claims considered here.) -/
def insertListing (db : Store) (id : String) (userId title : Option String)
    (description category : Option String) (lat lng : Option ℝ) (now : Nat) :
    Except SqlError Store :=
  match userId, title, lat, lng with
  | some u, some t, some la, some ln =>
    if db.posts.any (fun p => p.id = id) then .error .primaryKey
    else .ok { db with posts := db.posts ++ [⟨id, u, t, description, category, la, ln, now⟩] }
  | _, _, _, _ => .error .notNull

/-- A row of the GET /api/posts/nearby result: SELECT p.*, u.name as
user_name, distance. -/
structure PostHit where
  post : PostRow
  userName : String
  distance : ℝ

/-- A row of the GET /api/workers/nearby result: SELECT *, distance. -/
structure WorkerHit where
  user : UserRow
  distance : ℝ

noncomputable instance : DecidableRel (fun a b : PostHit => a.distance ≤ b.distance) :=
  fun a b => inferInstanceAs (Decidable (a.distance ≤ b.distance))

noncomputable instance : DecidableRel (fun a b : WorkerHit => a.distance ≤ b.distance) :=
  fun a b => inferInstanceAs (Decidable (a.distance ≤ b.distance))

/-- The FROM/JOIN stage of GET /api/posts/nearby: posts p JOIN users u ON
p.user_id = u.id (an inner join), each joined row annotated with the selected
columns: all of p, u.name, and the computed distance. -/
noncomputable def postsCandidates (qLat qLng : ℝ) (db : Store) : List PostHit :=
  db.posts.flatMap fun p =>
    (db.users.filter fun u => u.id = p.userId).map fun u =>
      ⟨p, u.name, sqlDistance qLat qLng p.lat p.lng⟩

/-- The value bound for the radius parameter of a nearby request.  When the
client supplies radius, Express yields a string and better-sqlite3 binds it
as TEXT; when the parameter is absent, the JavaScript default 50 is a number
bound as REAL.  (lat and lng always pass through parseFloat and are
numeric.) -/
inductive SqlValue where
  | real (x : ℝ)
  | text (s : String)

/-- The SQLite comparison distance < radius for a non-NULL REAL distance
against the bound radius.  REAL against REAL compares numerically; REAL
against TEXT is always true, because SQLite orders every numeric value
before every text value and neither operand has an affinity that converts
the other. -/
def sqlLtRadius (d : ℝ) : SqlValue → Prop
  | .real x => d < x
  | .text _ => True

noncomputable instance (d : ℝ) : (v : SqlValue) → Decidable (sqlLtRadius d v)
  | .real x => inferInstanceAs (Decidable (d < x))
  | .text _ => isTrue True.intro

/-- GET /api/posts/nearby: WHERE distance < radius, ORDER BY distance ASC
over the joined rows, with the radius compared as bound. -/
noncomputable def postsNearby (qLat qLng : ℝ) (radius : SqlValue) (db : Store) :
    List PostHit :=
  List.insertionSort (fun a b : PostHit => a.distance ≤ b.distance)
    ((postsCandidates qLat qLng db).filter fun h => sqlLtRadius h.distance radius)

/-- Contribution of one users row to the workers query: the row passes the
role = worker test and has a non-NULL distance column.  A NULL lat or lng
makes the distance expression NULL, and NULL < radius is not true in SQL
three-valued logic, so such rows never pass the WHERE clause. -/
noncomputable def workerRow (qLat qLng : ℝ) (u : UserRow) : List WorkerHit :=
  match u.lat, u.lng with
  | some la, some ln =>
    if u.role = "worker" then [⟨u, sqlDistance qLat qLng la ln⟩] else []
  | _, _ => []

/-- The FROM/role stage of GET /api/workers/nearby: rows of users with
role = worker whose distance column is non-NULL. -/
noncomputable def workersCandidates (qLat qLng : ℝ) (db : Store) : List WorkerHit :=
  db.users.flatMap (workerRow qLat qLng)

/-- GET /api/workers/nearby: WHERE role = worker AND distance < radius,
ORDER BY distance ASC, with the radius compared as bound. -/
noncomputable def workersNearby (qLat qLng : ℝ) (radius : SqlValue) (db : Store) :
    List WorkerHit :=
  List.insertionSort (fun a b : WorkerHit => a.distance ≤ b.distance)
    ((workersCandidates qLat qLng db).filter fun h => sqlLtRadius h.distance radius)

lemma mem_postsNearby {qLat qLng : ℝ} {radius : SqlValue} {db : Store} {h : PostHit} :
    h ∈ postsNearby qLat qLng radius db ↔
      h ∈ postsCandidates qLat qLng db ∧ sqlLtRadius h.distance radius := by
  simp [postsNearby, List.mem_filter]

lemma mem_workersNearby {qLat qLng : ℝ} {radius : SqlValue} {db : Store} {h : WorkerHit} :
    h ∈ workersNearby qLat qLng radius db ↔
      h ∈ workersCandidates qLat qLng db ∧ sqlLtRadius h.distance radius := by
  simp [workersNearby, List.mem_filter]

lemma mem_workerRow {qLat qLng : ℝ} {u : UserRow} {h : WorkerHit} :
    h ∈ workerRow qLat qLng u ↔
      ∃ la ln, u.lat = some la ∧ u.lng = some ln ∧ u.role = "worker" ∧
        h = ⟨u, sqlDistance qLat qLng la ln⟩ := by
  rcases u with ⟨uid, uname, urole, ulat, ulng, ut⟩
  rcases ulat with _ | la <;> rcases ulng with _ | ln <;> simp [workerRow]

lemma mem_workersCandidates {qLat qLng : ℝ} {db : Store} {h : WorkerHit} :
    h ∈ workersCandidates qLat qLng db ↔
      ∃ u ∈ db.users, ∃ la ln, u.lat = some la ∧ u.lng = some ln ∧
        u.role = "worker" ∧ h = ⟨u, sqlDistance qLat qLng la ln⟩ := by
  simp [workersCandidates, List.mem_flatMap, mem_workerRow]

lemma mem_postsCandidates {qLat qLng : ℝ} {db : Store} {h : PostHit} :
    h ∈ postsCandidates qLat qLng db ↔
      ∃ p ∈ db.posts, ∃ u ∈ db.users, u.id = p.userId ∧
        h = ⟨p, u.name, sqlDistance qLat qLng p.lat p.lng⟩ := by
  simp only [postsCandidates, List.mem_flatMap, List.mem_map, List.mem_filter,
    decide_eq_true_eq]
  constructor
  · rintro ⟨p, hp, u, ⟨hu, hid⟩, rfl⟩
    exact ⟨p, hp, u, hu, hid, rfl⟩
  · rintro ⟨p, hp, u, hu, hid, rfl⟩
    exact ⟨p, hp, u, ⟨hu, hid⟩, rfl⟩

/-- A worker a quarter of the Earth away from the origin (0, 0): latitude 0,
longitude 90 puts it at distance 6371 * pi / 2, about 10007 km. -/
def workerFar : UserRow := ⟨"f", "Far", "worker", some 0, some 90, 0⟩

/-- A store holding just the far-away worker. -/
def storeFar : Store := ⟨[workerFar], []⟩

lemma sqlDistance_zero_ninety : sqlDistance 0 0 0 90 = 6371 * (Real.pi / 2) := by
  unfold sqlDistance radians
  rw [show (0:ℝ) * Real.pi / 180 = 0 by ring,
    show (90:ℝ) * Real.pi / 180 = Real.pi / 2 by ring, sub_zero, Real.cos_zero,
    Real.sin_zero, Real.cos_pi_div_two]
  norm_num [Real.arccos_zero]

lemma fifty_lt_sqlDistance_zero_ninety : (50:ℝ) < sqlDistance 0 0 0 90 := by
  rw [sqlDistance_zero_ninety]
  nlinarith [Real.pi_gt_three]

/-- Counterexample to C1: with the radius supplied by the client it is bound
as TEXT, the WHERE comparison is always true, and the worker about 10007 km
away is returned even though its distance far exceeds the requested 50 km;
the claim says every candidate at distance at least the radius is excluded. -/
theorem radius_text_no_filter_cex :
    WorkerHit.mk workerFar (sqlDistance 0 0 0 90) ∈
      workersNearby 0 0 (SqlValue.text "50") storeFar ∧
    (50:ℝ) < sqlDistance 0 0 0 90 := by
  refine ⟨mem_workersNearby.2 ⟨?_, ?_⟩, fifty_lt_sqlDistance_zero_ninety⟩
  · exact mem_workersCandidates.2 ⟨workerFar, by simp [storeFar], 0, 90, rfl, rfl, rfl, rfl⟩
  · exact True.intro

/-- C1 (amended): when the radius is bound as a number (in particular the
defaulted 50), both nearby queries retain exactly the candidate rows whose
computed distance is strictly below it, a candidate at distance equal to the
radius being excluded; when the radius is supplied by the client it is bound
as TEXT and both queries retain every candidate row regardless of distance. -/
theorem nearby_radius_filter_by_binding (qLat qLng : ℝ) (db : Store) :
    (∀ r : ℝ, ∀ h : PostHit, h ∈ postsNearby qLat qLng (SqlValue.real r) db ↔
      h ∈ postsCandidates qLat qLng db ∧ h.distance < r) ∧
    (∀ r : ℝ, ∀ w : WorkerHit, w ∈ workersNearby qLat qLng (SqlValue.real r) db ↔
      w ∈ workersCandidates qLat qLng db ∧ w.distance < r) ∧
    (∀ s : String, ∀ h : PostHit, h ∈ postsNearby qLat qLng (SqlValue.text s) db ↔
      h ∈ postsCandidates qLat qLng db) ∧
    (∀ s : String, ∀ w : WorkerHit, w ∈ workersNearby qLat qLng (SqlValue.text s) db ↔
      w ∈ workersCandidates qLat qLng db) := by
  refine ⟨fun r h => mem_postsNearby, fun r w => mem_workersNearby, ?_, ?_⟩
  · intro s h
    rw [mem_postsNearby]
    simp [sqlLtRadius]
  · intro s w
    rw [mem_workersNearby]
    simp [sqlLtRadius]

/-- Counterexample to C7: with requested radii 10 < 50, the far worker is
returned for the client-supplied radius 10 (bound as TEXT, so the filter
passes everything) but not for the defaulted numeric radius 50, so the
result at the smaller radius is not contained in the result at the larger. -/
theorem radius_monotonicity_cex :
    (10:ℝ) < 50 ∧
    WorkerHit.mk workerFar (sqlDistance 0 0 0 90) ∈
      workersNearby 0 0 (SqlValue.text "10") storeFar ∧
    WorkerHit.mk workerFar (sqlDistance 0 0 0 90) ∉
      workersNearby 0 0 (SqlValue.real 50) storeFar := by
  refine ⟨by norm_num, mem_workersNearby.2 ⟨?_, True.intro⟩, ?_⟩
  · exact mem_workersCandidates.2 ⟨workerFar, by simp [storeFar], 0, 90, rfl, rfl, rfl, rfl⟩
  · intro hm
    rcases mem_workersNearby.1 hm with ⟨_, hd⟩
    have hd2 : sqlDistance 0 0 0 90 < 50 := hd
    exact absurd hd2 (not_lt.2 fifty_lt_sqlDistance_zero_ninety.le)

/-- C7 (amended): monotonicity in the radius holds between numerically bound
radii, and every numeric-radius result is contained in the result for any
client-supplied TEXT-bound radius, which retains all candidates; it fails
between a supplied radius and the defaulted numeric 50, since the supplied
one is bound as TEXT and returns every candidate. -/
theorem nearby_monotone_radius_by_binding (qLat qLng r1 r2 : ℝ) (s : String)
    (db : Store) (hr : r1 < r2) :
    (∀ h : PostHit, h ∈ postsNearby qLat qLng (SqlValue.real r1) db →
      h ∈ postsNearby qLat qLng (SqlValue.real r2) db) ∧
    (∀ w : WorkerHit, w ∈ workersNearby qLat qLng (SqlValue.real r1) db →
      w ∈ workersNearby qLat qLng (SqlValue.real r2) db) ∧
    (∀ h : PostHit, h ∈ postsNearby qLat qLng (SqlValue.real r1) db →
      h ∈ postsNearby qLat qLng (SqlValue.text s) db) ∧
    (∀ w : WorkerHit, w ∈ workersNearby qLat qLng (SqlValue.real r1) db →
      w ∈ workersNearby qLat qLng (SqlValue.text s) db) := by
  refine ⟨?_, ?_, ?_, ?_⟩
  · intro h hm
    rcases mem_postsNearby.1 hm with ⟨hc, hd⟩
    exact mem_postsNearby.2 ⟨hc, lt_trans hd hr⟩
  · intro w hm
    rcases mem_workersNearby.1 hm with ⟨hc, hd⟩
    exact mem_workersNearby.2 ⟨hc, lt_trans hd hr⟩
  · intro h hm
    exact mem_postsNearby.2 ⟨(mem_postsNearby.1 hm).1, True.intro⟩
  · intro w hm
    exact mem_workersNearby.2 ⟨(mem_workersNearby.1 hm).1, True.intro⟩

/-- A worker row sitting at the origin (0, 0), used by concrete witnesses. -/
def workerAtOrigin : UserRow := ⟨"w1", "Alice", "worker", some 0, some 0, 0⟩

/-- A store holding just the worker at the origin. -/
def storeW : Store := ⟨[workerAtOrigin], []⟩

lemma workerAtOrigin_mem_nearby {radius : ℝ} (hr : 0 < radius) :
    WorkerHit.mk workerAtOrigin (sqlDistance 0 0 0 0) ∈
      workersNearby 0 0 (SqlValue.real radius) storeW := by
  refine mem_workersNearby.2 ⟨?_, ?_⟩
  · exact mem_workersCandidates.2 ⟨workerAtOrigin, by simp [storeW], 0, 0, rfl, rfl, rfl, rfl⟩
  · show sqlDistance 0 0 0 0 < radius
    rw [sqlDistance_self]
    exact hr

/-- Witness for the amended C7: the worker at the origin is returned at
numeric radius 1 and, by the theorem, also at numeric radius 2 and at the
TEXT-bound radius 9. -/
theorem nearby_monotone_radius_by_binding_witness :
    (1:ℝ) < 2 ∧
    WorkerHit.mk workerAtOrigin (sqlDistance 0 0 0 0) ∈
      workersNearby 0 0 (SqlValue.real 2) storeW ∧
    WorkerHit.mk workerAtOrigin (sqlDistance 0 0 0 0) ∈
      workersNearby 0 0 (SqlValue.text "9") storeW :=
  ⟨by norm_num,
    (nearby_monotone_radius_by_binding 0 0 1 2 "9" storeW (by norm_num)).2.1 _
      (workerAtOrigin_mem_nearby (by norm_num)),
    (nearby_monotone_radius_by_binding 0 0 1 2 "9" storeW (by norm_num)).2.2.2 _
      (workerAtOrigin_mem_nearby (by norm_num))⟩

/-- C2 (amended): both nearby queries return their rows sorted in
non-decreasing order of the computed distance.  The SQL applies ORDER BY
distance ASC only; no tie-break on candidate id is performed. -/
theorem nearby_sorted_by_distance (qLat qLng : ℝ) (radius : SqlValue) (db : Store) :
    List.Sorted (fun a b : PostHit => a.distance ≤ b.distance)
      (postsNearby qLat qLng radius db) ∧
    List.Sorted (fun a b : WorkerHit => a.distance ≤ b.distance)
      (workersNearby qLat qLng radius db) := by
  constructor
  · haveI : IsTotal PostHit (fun a b => a.distance ≤ b.distance) :=
      ⟨fun a b => le_total a.distance b.distance⟩
    haveI : IsTrans PostHit (fun a b => a.distance ≤ b.distance) :=
      ⟨fun _ _ _ hab hbc => le_trans hab hbc⟩
    exact List.sorted_insertionSort _ _
  · haveI : IsTotal WorkerHit (fun a b => a.distance ≤ b.distance) :=
      ⟨fun a b => le_total a.distance b.distance⟩
    haveI : IsTrans WorkerHit (fun a b => a.distance ≤ b.distance) :=
      ⟨fun _ _ _ hab hbc => le_trans hab hbc⟩
    exact List.sorted_insertionSort _ _

/-- Two workers at the same coordinates as the origin, the row with the
larger id inserted first. -/
def workerB : UserRow := ⟨"b", "Bob", "worker", some 0, some 0, 0⟩

def workerA : UserRow := ⟨"a", "Ann", "worker", some 0, some 0, 0⟩

def storeTie : Store := ⟨[workerB, workerA], []⟩

lemma workersNearby_storeTie :
    workersNearby 0 0 (SqlValue.real 50) storeTie =
      [⟨workerB, (0:ℝ)⟩, ⟨workerA, (0:ℝ)⟩] := by
  have hc : workersCandidates 0 0 storeTie =
      [⟨workerB, sqlDistance 0 0 0 0⟩, ⟨workerA, sqlDistance 0 0 0 0⟩] := rfl
  have hd : sqlDistance (0:ℝ) 0 0 0 = 0 := sqlDistance_self 0 0
  rw [workersNearby, hc, hd]
  have hf : List.filter (fun h : WorkerHit => sqlLtRadius h.distance (SqlValue.real 50))
      [⟨workerB, (0:ℝ)⟩, ⟨workerA, (0:ℝ)⟩] = [⟨workerB, (0:ℝ)⟩, ⟨workerA, (0:ℝ)⟩] := by
    simp only [List.filter_eq_self, List.mem_cons, decide_eq_true_eq]
    rintro a (rfl | rfl | h)
    · show (0:ℝ) < 50
      norm_num
    · show (0:ℝ) < 50
      norm_num
    · cases h
  rw [hf]
  simp [List.insertionSort, List.orderedInsert]

/-- Counterexample to C2: at equal distance the two workers come back in
table order (the order of insertion), not ordered by id, so the result is not
sorted under the distance-then-id relation the claim asserts. -/
theorem nearby_tiebreak_by_id_cex :
    ¬ List.Sorted (fun a b : WorkerHit =>
        a.distance < b.distance ∨ (a.distance = b.distance ∧ a.user.id ≤ b.user.id))
      (workersNearby 0 0 (SqlValue.real 50) storeTie) := by
  rw [workersNearby_storeTie]
  intro hs
  rcases List.sorted_cons.1 hs with ⟨hrel, _⟩
  rcases hrel _ (List.mem_singleton.2 rfl) with hlt | ⟨_, hle⟩
  · exact lt_irrefl _ hlt
  · have : ¬ ((workerB.id : String) ≤ workerA.id) := by
      rw [show workerB.id = "b" from rfl, show workerA.id = "a" from rfl,
        String.le_iff_toList_le]
      decide
    exact this hle

/-- C9: a participant with a NULL latitude or longitude never appears in the
workers nearby result, and every returned row has role worker. -/
theorem workers_query_requires_location_and_role (qLat qLng : ℝ)
    (radius : SqlValue) (db : Store) (h : WorkerHit)
    (hm : h ∈ workersNearby qLat qLng radius db) :
    h.user.role = "worker" ∧ h.user.lat ≠ none ∧ h.user.lng ≠ none := by
  rcases mem_workersNearby.1 hm with ⟨hc, _⟩
  rcases mem_workersCandidates.1 hc with ⟨u, _, la, ln, hla, hln, hrole, rfl⟩
  simp [hla, hln, hrole]

/-- Witness for C9 on the concrete one-worker store. -/
theorem workers_query_requires_location_and_role_witness :
    WorkerHit.mk workerAtOrigin (sqlDistance 0 0 0 0) ∈
      workersNearby 0 0 (SqlValue.real 50) storeW ∧
    ((WorkerHit.mk workerAtOrigin (sqlDistance 0 0 0 0)).user.role = "worker" ∧
      (WorkerHit.mk workerAtOrigin (sqlDistance 0 0 0 0)).user.lat ≠ none ∧
      (WorkerHit.mk workerAtOrigin (sqlDistance 0 0 0 0)).user.lng ≠ none) :=
  ⟨workerAtOrigin_mem_nearby (by norm_num),
    workers_query_requires_location_and_role 0 0 (SqlValue.real 50) storeW _
      (workerAtOrigin_mem_nearby (by norm_num))⟩

/-- C10: every row of the workers nearby result carries a complete stored
users record, every column included, together with the computed distance. -/
theorem workers_response_complete_record (qLat qLng : ℝ) (radius : SqlValue)
    (db : Store) (h : WorkerHit) (hm : h ∈ workersNearby qLat qLng radius db) :
    ∃ u ∈ db.users, h.user.id = u.id ∧ h.user.name = u.name ∧
      h.user.role = u.role ∧ h.user.lat = u.lat ∧ h.user.lng = u.lng ∧
      h.user.lastActive = u.lastActive ∧
      ∃ la ln, u.lat = some la ∧ u.lng = some ln ∧
        h.distance = sqlDistance qLat qLng la ln := by
  rcases mem_workersNearby.1 hm with ⟨hc, _⟩
  rcases mem_workersCandidates.1 hc with ⟨u, hu, la, ln, hla, hln, _, rfl⟩
  exact ⟨u, hu, rfl, rfl, rfl, rfl, rfl, rfl, la, ln, hla, hln, rfl⟩

/-- Witness for C10 on the concrete one-worker store. -/
theorem workers_response_complete_record_witness :
    WorkerHit.mk workerAtOrigin (sqlDistance 0 0 0 0) ∈
      workersNearby 0 0 (SqlValue.real 50) storeW ∧
    ∃ u ∈ storeW.users,
      (WorkerHit.mk workerAtOrigin (sqlDistance 0 0 0 0)).user.id = u.id ∧
      (WorkerHit.mk workerAtOrigin (sqlDistance 0 0 0 0)).user.name = u.name ∧
      (WorkerHit.mk workerAtOrigin (sqlDistance 0 0 0 0)).user.role = u.role ∧
      (WorkerHit.mk workerAtOrigin (sqlDistance 0 0 0 0)).user.lat = u.lat ∧
      (WorkerHit.mk workerAtOrigin (sqlDistance 0 0 0 0)).user.lng = u.lng ∧
      (WorkerHit.mk workerAtOrigin (sqlDistance 0 0 0 0)).user.lastActive = u.lastActive ∧
      ∃ la ln, u.lat = some la ∧ u.lng = some ln ∧
        (WorkerHit.mk workerAtOrigin (sqlDistance 0 0 0 0)).distance =
          sqlDistance 0 0 la ln :=
  ⟨workerAtOrigin_mem_nearby (by norm_num),
    workers_response_complete_record 0 0 (SqlValue.real 50) storeW _
      (workerAtOrigin_mem_nearby (by norm_num))⟩

/-- A listing whose user_id matches no users row: the referenced participant
does not exist. -/
def danglingPost : PostRow := ⟨"p1", "ghost", "Help needed", none, none, 0, 0, 0⟩

def storeDangling : Store := ⟨[], [danglingPost]⟩

/-- Counterexample to C3: the stored listing with an unresolvable owner sits
within the radius of the query origin, yet the posts nearby query returns
nothing, because the SQL performs an inner join on users.  The claim says the
listing is still returned with an absent owner name. -/
theorem posts_query_drops_dangling_cex :
    danglingPost ∈ storeDangling.posts ∧
    sqlDistance 0 0 danglingPost.lat danglingPost.lng < 50 ∧
    postsNearby 0 0 (SqlValue.real 50) storeDangling = [] :=
  ⟨List.mem_singleton.2 rfl,
    by rw [show danglingPost.lat = 0 from rfl, show danglingPost.lng = 0 from rfl,
        sqlDistance_self]; norm_num,
    rfl⟩

/-- C3 (amended): the join stage behind GET /api/posts/nearby produces
exactly the stored listings whose user_id resolves to an existing users row,
each paired with the name of that owner and the computed distance; a listing
with a dangling user_id is silently omitted rather than returned with a null
owner name, the query itself never fails, and whatever the bound radius,
nothing outside that join ever reaches the response. -/
theorem posts_query_inner_join (qLat qLng : ℝ) (db : Store) :
    (∀ h : PostHit, h ∈ postsCandidates qLat qLng db ↔
      ∃ p ∈ db.posts, ∃ u ∈ db.users, u.id = p.userId ∧
        h = ⟨p, u.name, sqlDistance qLat qLng p.lat p.lng⟩) ∧
    (∀ radius : SqlValue, ∀ h : PostHit,
      h ∈ postsNearby qLat qLng radius db → h ∈ postsCandidates qLat qLng db) :=
  ⟨fun _ => mem_postsCandidates, fun _ _ hm => (mem_postsNearby.1 hm).1⟩

/-- Counterexample to C4: the POST /api/users handler accepts an empty name
and a latitude of 1000, far outside [-90, 90], and stores the row; the claim
says both inputs must fail with a validation error leaving the store
unchanged. -/
theorem upsert_no_validation_cex :
    upsertParticipant emptyStore "u1" (some "") (some "worker") (some 1000) (some 0) 5 =
      Except.ok ⟨[⟨"u1", "", "worker", some 1000, some 0, 5⟩], []⟩ ∧
    ¬ ((1000:ℝ) ≤ 90) :=
  ⟨rfl, by norm_num⟩

/-- C4 (amended): upsertParticipant fails, leaving the store unchanged,
exactly when the supplied name or role is NULL or the role is neither worker
nor employer (the NOT NULL and CHECK constraints of the users table); an
empty non-NULL name and out-of-range coordinates are accepted, since the
handler performs no such validation. -/
theorem upsert_validation_characterization (db : Store) (id : String)
    (name role : Option String) (lat lng : Option ℝ) (now : Nat) :
    (∃ db2, upsertParticipant db id name role lat lng now = .ok db2) ↔
      (name ≠ none ∧ (role = some "worker" ∨ role = some "employer")) := by
  rcases name with _ | n
  · simp [upsertParticipant]
  · rcases role with _ | r
    · simp [upsertParticipant]
    · by_cases hr : r = "worker" ∨ r = "employer" <;>
        simp [upsertParticipant, hr]

/-- C5: inserting a listing whose id is already present fails with the
primary-key conflict error, and the posts table still contains exactly the
one record for that id, carrying the fields of the first call. -/
theorem insertListing_duplicate_conflict (db0 db1 : Store) (id uid ttl : String)
    (desc cat : Option String) (la ln : ℝ) (n1 : Nat)
    (uid2 ttl2 : String) (desc2 cat2 : Option String) (la2 ln2 : ℝ) (n2 : Nat)
    (hfresh : ∀ p ∈ db0.posts, p.id ≠ id)
    (h1 : insertListing db0 id (some uid) (some ttl) desc cat (some la) (some ln) n1 =
      .ok db1) :
    insertListing db1 id (some uid2) (some ttl2) desc2 cat2 (some la2) (some ln2) n2 =
      Except.error SqlError.primaryKey ∧
    db1.posts.filter (fun p => p.id = id) = [⟨id, uid, ttl, desc, cat, la, ln, n1⟩] := by
  have hany : db0.posts.any (fun p => p.id = id) = false := by
    simp only [List.any_eq_false, decide_eq_true_eq]
    exact hfresh
  unfold insertListing at h1
  rw [hany] at h1
  simp only [Bool.false_eq_true, if_false, Except.ok.injEq] at h1
  subst h1
  constructor
  · simp [insertListing, List.any_append]
  · rw [List.filter_append]
    have hnil : db0.posts.filter (fun p => p.id = id) = [] := by
      simp only [List.filter_eq_nil_iff, decide_eq_true_eq]
      exact hfresh
    rw [hnil]
    simp

/-- Witness for C5: a concrete first insert into the empty store followed by
a second insert with the same id. -/
theorem insertListing_duplicate_conflict_witness :
    (∀ p ∈ emptyStore.posts, p.id ≠ "p1") ∧
    insertListing emptyStore "p1" (some "u1") (some "Job") none none
        (some 1) (some 2) 3 =
      .ok ⟨[], [⟨"p1", "u1", "Job", none, none, 1, 2, 3⟩]⟩ ∧
    (insertListing ⟨[], [⟨"p1", "u1", "Job", none, none, 1, 2, 3⟩]⟩ "p1" (some "u2")
        (some "Job2") none none (some 4) (some 5) 6 =
      Except.error SqlError.primaryKey ∧
    (Store.mk [] [⟨"p1", "u1", "Job", none, none, 1, 2, 3⟩]).posts.filter
        (fun p => p.id = "p1") = [⟨"p1", "u1", "Job", none, none, 1, 2, 3⟩]) :=
  ⟨fun p hp => absurd hp (List.not_mem_nil p), rfl,
    insertListing_duplicate_conflict emptyStore _ "p1" "u1" "Job" none none 1 2 3
      "u2" "Job2" none none 4 5 6 (fun p hp => absurd hp (List.not_mem_nil p)) rfl⟩

/-- The id column values of the users table. -/
def userIds (db : Store) : List String := db.users.map (fun u => u.id)

lemma upsert_ok_users {db db2 : Store} {id n r : String} {lat lng : Option ℝ}
    {now : Nat}
    (h : upsertParticipant db id (some n) (some r) lat lng now = .ok db2) :
    db2.users = db.users.filter (fun u => u.id ≠ id) ++ [⟨id, n, r, lat, lng, now⟩] := by
  simp only [upsertParticipant] at h
  split at h
  · cases h
    rfl
  · cases h

lemma upsert_preserves_nodup {db db2 : Store} {id n r : String}
    {lat lng : Option ℝ} {now : Nat} (hnd : (userIds db).Nodup)
    (h : upsertParticipant db id (some n) (some r) lat lng now = .ok db2) :
    (userIds db2).Nodup := by
  rw [userIds, upsert_ok_users h, List.map_append, List.nodup_append]
  refine ⟨?_, by simp, ?_⟩
  · exact hnd.sublist ((List.filter_sublist db.users).map (fun u => u.id))
  · intro a ha
    simp only [List.mem_map, List.mem_filter, decide_eq_true_eq] at ha
    rcases ha with ⟨u, ⟨_, hne⟩, rfl⟩
    simp only [List.map_cons, List.map_nil, List.mem_cons, List.not_mem_nil,
      or_false]
    exact fun hEq => hne hEq

/-- C6: INSERT OR REPLACE keeps at most one users record per id.  From a
store with pairwise distinct user ids, each successful upsert preserves that
uniqueness, and upserting the same id twice leaves exactly one record for it,
carrying the coordinates of the second call and a last_active stamp strictly
later than the first. -/
theorem upsert_replaces_keeping_one_record (db db1 db2 : Store)
    (id n1 r1 n2 r2 : String) (la1 ln1 la2 ln2 : Option ℝ) (t1 t2 : Nat)
    (hnd : (userIds db).Nodup)
    (h1 : upsertParticipant db id (some n1) (some r1) la1 ln1 t1 = .ok db1)
    (h2 : upsertParticipant db1 id (some n2) (some r2) la2 ln2 t2 = .ok db2)
    (ht : t1 < t2) :
    (userIds db1).Nodup ∧ (userIds db2).Nodup ∧
    db2.users.filter (fun u => u.id = id) = [⟨id, n2, r2, la2, ln2, t2⟩] ∧
    ∀ u ∈ db2.users, u.id = id → t1 < u.lastActive := by
  have hnd1 := upsert_preserves_nodup hnd h1
  have hnd2 := upsert_preserves_nodup hnd1 h2
  refine ⟨hnd1, hnd2, ?_, ?_⟩
  · rw [upsert_ok_users h2, List.filter_append]
    have hnil : (db1.users.filter (fun u => u.id ≠ id)).filter
        (fun u => u.id = id) = [] := by
      simp only [List.filter_eq_nil_iff, decide_eq_true_eq]
      intro a ha hEq
      have hne := List.of_mem_filter ha
      simp only [decide_eq_true_eq] at hne
      exact hne hEq
    rw [hnil]
    simp
  · intro u hu hid
    rw [upsert_ok_users h2] at hu
    rcases List.mem_append.1 hu with hL | hR
    · have hne := List.of_mem_filter hL
      simp only [decide_eq_true_eq] at hne
      exact absurd hid hne
    · rw [List.mem_singleton] at hR
      subst hR
      exact ht

/-- Witness for C6: two concrete upserts of the same id with different
coordinates, starting from the empty store. -/
theorem upsert_replaces_keeping_one_record_witness :
    (userIds emptyStore).Nodup ∧
    upsertParticipant emptyStore "u" (some "A") (some "worker") (some 1) (some 2) 0 =
      .ok ⟨[⟨"u", "A", "worker", some 1, some 2, 0⟩], []⟩ ∧
    upsertParticipant ⟨[⟨"u", "A", "worker", some 1, some 2, 0⟩], []⟩ "u"
        (some "A2") (some "worker") (some 3) (some 4) 1 =
      .ok ⟨[⟨"u", "A2", "worker", some 3, some 4, 1⟩], []⟩ ∧
    (0:Nat) < 1 ∧
    ((userIds ⟨[⟨"u", "A", "worker", some 1, some 2, 0⟩], []⟩).Nodup ∧
      (userIds ⟨[⟨"u", "A2", "worker", some 3, some 4, 1⟩], []⟩).Nodup ∧
      (Store.mk [⟨"u", "A2", "worker", some 3, some 4, 1⟩] []).users.filter
          (fun u => u.id = "u") = [⟨"u", "A2", "worker", some 3, some 4, 1⟩] ∧
      ∀ u ∈ (Store.mk [⟨"u", "A2", "worker", some 3, some 4, 1⟩] []).users,
        u.id = "u" → 0 < u.lastActive) :=
  ⟨by simp [userIds, emptyStore], rfl, rfl, by decide,
    upsert_replaces_keeping_one_record emptyStore _ _ "u" "A" "worker" "A2" "worker"
      (some 1) (some 2) (some 3) (some 4) 0 1 (by simp [userIds, emptyStore])
      rfl rfl (by decide)⟩
